import Mathlib

/-!
Shallow embedding of the Capstone video batch-processing scripts:
video-compression-script.py, video-crop-script.py, conv.py and
video-folder-organizer.py.  External effects (ffmpeg / ffprobe exit
codes, os.path.getsize, Path.mkdir, Path.exists) are modelled as pure
oracle functions collected in an Env record; the scripts' control flow,
command construction and counter arithmetic are translated literally.
Python exceptions are modelled with Except PyError; Python float
division by zero is modelled by an explicit zero test raising
PyError.zeroDivisionError, matching the ZeroDivisionError that Python
raises on float division by 0.0.
-/

namespace Capstone

/-- Exceptions that the modelled Python code can raise: OSError from
os.path.getsize or Path.mkdir, and ZeroDivisionError from dividing by a
zero file size. -/
inductive PyError where
  | osError
  | zeroDivisionError
deriving DecidableEq

/-- Oracle model of the external world: ffprobe exit codes, the parsed
float of ffprobe's stdout (none when float() would raise ValueError),
the exit code of running a given ffmpeg command line, os.path.getsize
(none when it raises OSError), whether Path.mkdir succeeds, and
Path.exists.  The tools are modelled as deterministic functions of
their arguments. -/
structure Env where
  ffprobeExit : String → Int
  ffprobeParsed : String → Option ℚ
  ffmpegExit : List String → Int
  getsize : String → Option Nat
  mkdirOk : String → Bool
  dirExists : String → Bool

/-- Decidable equality of modelled Python results. -/
def exceptToSum {ε α : Type} : Except ε α → Sum ε α
  | .error e => .inl e
  | .ok a => .inr a

instance {ε α : Type} [DecidableEq ε] [DecidableEq α] : DecidableEq (Except ε α) :=
  fun x y =>
    decidable_of_iff (exceptToSum x = exceptToSum y)
      (by cases x <;> cases y <;> simp [exceptToSum])

/-- Joining of a directory path and an entry name, as done by
Path.__truediv__ and os.path.join in the scripts. -/
def pathJoin (a b : String) : String := a ++ ("/") ++ b

/-- Default recognized extensions, from both directory-processing
scripts: video_extensions = ['.mp4', '.mkv', '.avi', '.mov', '.wmv',
'.flv', '.webm']. -/
def video_extensions : List String :=
  [(".mp4"), (".mkv"), (".avi"), (".mov"), (".wmv"), (".flv"), (".webm")]

/-- Python's file.lower().endswith(ext) test from the walk loops,
modelled on the character list of the string: lowercase every character
and test for the extension as a suffix. -/
def isVideoFile (file : String) : Bool :=
  video_extensions.any (fun ext => ext.data.isSuffixOf (file.data.map Char.toLower))

/-- Input or output path of a file found in a walked directory: base
directory when the relative path is ".", otherwise base/relPath, then
the filename; matching root/file resp. current_output_dir/file in the
scripts. -/
def inputPathOf (base relPath file : String) : String :=
  if relPath = (".") then pathJoin base file else pathJoin (pathJoin base relPath) file

/-! ## compress_video (video-compression-script.py) -/

/-- Command line built by compress_video: H.264 re-encode at the given
CRF with medium preset, AAC audio at 128k, and -y to overwrite an
existing destination. -/
def compressCmd (input output : String) (crf : Nat) : List String :=
  [("ffmpeg"), ("-i"), input, ("-c:v"), ("libx264"), ("-crf"), toString crf,
   ("-preset"), ("medium"), ("-c:a"), ("aac"), ("-b:a"), ("128k"), output, ("-y")]

/-- Body of compress_video inside its try block: run ffmpeg; on
non-zero exit return False; otherwise read both file sizes in MB (a
getsize failure raises OSError), compute the logged compression ratio
and return True together with the ratio that was logged.  Python's
float division raises ZeroDivisionError exactly when input_size is 0.0,
which happens exactly when the byte count returned by getsize is 0, so
the zero test is stated on the byte count. -/
def compressRun (env : Env) (input output : String) (crf : Nat) :
    Except PyError (Bool × Option ℚ) :=
  if env.ffmpegExit (compressCmd input output crf) != 0 then .ok (false, none)
  else
    match env.getsize input with
    | none => .error .osError
    | some inBytes =>
      match env.getsize output with
      | none => .error .osError
      | some outBytes =>
        if inBytes = 0 then .error .zeroDivisionError
        else
          .ok (true, some ((1 - ((outBytes : ℚ) / (1024 * 1024)) /
            ((inBytes : ℚ) / (1024 * 1024))) * 100))

/-- compress_video: the try body with the blanket except handler that
logs the exception and returns False. -/
def compress_video (env : Env) (input output : String) (crf : Nat) : Bool :=
  match compressRun env input output crf with
  | .ok r => r.1
  | .error _ => false

/-- The per-file compression ratio that compress_video logs, when it is
reached at all: none when ffmpeg failed or an exception was raised
before the logging line. -/
def compressReport (env : Env) (input output : String) (crf : Nat) : Option ℚ :=
  match compressRun env input output crf with
  | .ok r => r.2
  | .error _ => none

/-! ## get_video_duration and crop_video (video-crop-script.py) -/

/-- get_video_duration: run ffprobe; on non-zero exit return None;
otherwise float(stdout.strip()), whose ValueError is caught by the
blanket handler returning None — both failure paths collapse to the
parsed-float oracle being none. -/
def get_video_duration (env : Env) (p : String) : Option ℚ :=
  if env.ffprobeExit p != 0 then none else env.ffprobeParsed p

/-- Command line of crop_video's short branch (duration already within
the limit): plain stream copy with -y. -/
def cropCopyCmd (input output : String) : List String :=
  [("ffmpeg"), ("-i"), input, ("-c"), ("copy"), output, ("-y")]

/-- Command line of crop_video's long branch: cut at the max duration
with -t, stream copy for video and audio, and -y. -/
def cropTrimCmd (input output : String) (maxDuration : ℚ) : List String :=
  [("ffmpeg"), ("-i"), input, ("-t"), toString maxDuration,
   ("-c:v"), ("copy"), ("-c:a"), ("copy"), output, ("-y")]

/-- The command crop_video builds for a probed duration: the stream
copy when duration ≤ max_duration, the -t cut otherwise. -/
def cropCmd (input output : String) (duration maxDuration : ℚ) : List String :=
  if duration ≤ maxDuration then cropCopyCmd input output
  else cropTrimCmd input output maxDuration

/-- Body of crop_video inside its try block: probe the duration (None
means return False), run the branch-selected ffmpeg command, return
False on non-zero exit; in the long branch additionally read both file
sizes for the logged size reduction, which can raise OSError or (on a
zero-byte input, where the float input size is exactly 0.0)
ZeroDivisionError; finally return True. -/
def cropRun (env : Env) (input output : String) (maxDuration : ℚ) :
    Except PyError Bool :=
  match get_video_duration env input with
  | none => .ok false
  | some duration =>
    if env.ffmpegExit (cropCmd input output duration maxDuration) != 0 then .ok false
    else if duration > maxDuration then
      match env.getsize input with
      | none => .error .osError
      | some inBytes =>
        match env.getsize output with
        | none => .error .osError
        | some outBytes =>
          if inBytes = 0 then .error .zeroDivisionError
          else
            let _reduction : ℚ := (1 - ((outBytes : ℚ) / (1024 * 1024)) /
              ((inBytes : ℚ) / (1024 * 1024))) * 100
            .ok true
    else .ok true

/-- crop_video: the try body with the blanket except handler returning
False. -/
def crop_video (env : Env) (input output : String) (maxDuration : ℚ) : Bool :=
  match cropRun env input output maxDuration with
  | .ok b => b
  | .error _ => false

/-! ## conv.py batch converter -/

/-- Command line built by conv.py for one .mov file: H.264 slow preset
re-encode to mp4.  Note that unlike the other two scripts this command
has no -y flag. -/
def convCmd (input_file output_file : String) : List String :=
  [("ffmpeg"), ("-i"), input_file, ("-c:v"), ("libx264"), ("-preset"), ("slow"),
   ("-crf"), ("23"), ("-pix_fmt"), ("yuv420p"), ("-c:a"), ("aac"),
   ("-b:a"), ("128k"), output_file]

/-! ## sanitize_folder_name (video-folder-organizer.py) -/

/-- The characters of the regular-expression class that
sanitize_folder_name replaces. -/
def invalid_chars : List Char :=
  ['<', '>', ':', '\"', '/', '\\', '|', '?', '*']

/-- Replacement of a single character performed by re.sub on the class
of invalid characters. -/
def sanitizeChar (c : Char) : Char :=
  if invalid_chars.contains c then '_' else c

/-- sanitize_folder_name: replace every invalid character of the name
with an underscore. -/
def sanitize_folder_name (name : String) : String :=
  String.mk (name.data.map sanitizeChar)

/-! ## The directory walks (process_directory in both scripts) -/

/-- One directory yielded by os.walk, recorded by its path relative to
the walked base (os.path.relpath(root, base_dir), "." for the base
itself) together with its file names. -/
structure WalkEntry where
  relPath : String
  files : List String
deriving DecidableEq

/-- Statistics of the compression pipeline's run: total_videos,
compressed_videos, the implicit count of files seen but not
successfully compressed (the script logs these failures but keeps no
counter for them), total_saved_mb, and the (relative path, filename)
pairs of the output files written. -/
structure CompStats where
  total : Nat
  compressed : Nat
  failures : Nat
  savedMB : ℚ
  written : List (String × String)
deriving DecidableEq

/-- Statistics of the crop pipeline's run: total_videos,
processed_videos, cropped_videos, the implicit count of files seen but
not successfully processed, and the (relative path, filename) pairs of
the output files written. -/
structure CropStats where
  total : Nat
  processed : Nat
  cropped : Nat
  failures : Nat
  written : List (String × String)
deriving DecidableEq

/-- Sequencing of a possibly-raising loop-body result with the rest of
the loop: an exception short-circuits. -/
def exBind {σ : Type} (x : Except PyError σ) (g : σ → Except PyError σ) :
    Except PyError σ :=
  match x with
  | .ok s => g s
  | .error e => .error e

/-- Fold of a Python for-loop body over a list where the body may raise
an uncaught exception, which aborts the whole loop. -/
def exFold {σ α : Type} (f : σ → α → Except PyError σ) : σ → List α → Except PyError σ
  | s, [] => .ok s
  | s, a :: as => exBind (f s a) (fun s1 => exFold f s1 as)

/-- Per-file body of the compression pipeline's walk loop: skip
non-matching files; otherwise count the file, read its size with a bare
os.path.getsize (an OSError here aborts the run), call compress_video,
and on success read the output size (again bare) and accumulate the
saved megabytes and the written output. -/
def compFileStep (env : Env) (base out relPath : String) (crf : Nat)
    (st : CompStats) (file : String) : Except PyError CompStats :=
  if isVideoFile file then
    match env.getsize (inputPathOf base relPath file) with
    | none => .error .osError
    | some inBytes =>
      if compress_video env (inputPathOf base relPath file)
          (inputPathOf out relPath file) crf then
        match env.getsize (inputPathOf out relPath file) with
        | none => .error .osError
        | some outBytes =>
          .ok { st with
                total := st.total + 1
                compressed := st.compressed + 1
                savedMB := st.savedMB +
                  ((inBytes : ℚ) / (1024 * 1024) - (outBytes : ℚ) / (1024 * 1024))
                written := st.written ++ [(relPath, file)] }
      else .ok { st with total := st.total + 1, failures := st.failures + 1 }
  else .ok st

/-- Per-directory body of the compression pipeline's walk: create the
mirrored output directory when the relative path is not "." and it does
not exist — this mkdir is not inside any try block, so its OSError
aborts the run — then run the file loop. -/
def compDirStep (env : Env) (base out : String) (crf : Nat)
    (st : CompStats) (d : WalkEntry) : Except PyError CompStats :=
  if d.relPath != (".") && !(env.dirExists (pathJoin out d.relPath))
      && !(env.mkdirOk (pathJoin out d.relPath)) then .error .osError
  else exFold (compFileStep env base out d.relPath crf) st d.files

/-- process_directory of video-compression-script.py: create the output
root when missing (a failure here is fatal before any file), then walk
the tree accumulating statistics from zero. -/
def process_directory_comp (env : Env) (base out : String) (crf : Nat)
    (walk : List WalkEntry) : Except PyError CompStats :=
  if !(env.dirExists out) && !(env.mkdirOk out) then .error .osError
  else exFold (compDirStep env base out crf) ⟨0, 0, 0, 0, []⟩ walk

/-- Per-file body of the crop pipeline's walk loop: skip non-matching
files; otherwise count the file, probe its duration — None means the
loop continues with the next file, the file remaining unprocessed — and
call crop_video, counting a processed video and, when the probed
duration exceeds the limit, a cropped one. -/
def cropFileStep (env : Env) (base out relPath : String) (maxDuration : ℚ)
    (st : CropStats) (file : String) : Except PyError CropStats :=
  if isVideoFile file then
    match get_video_duration env (inputPathOf base relPath file) with
    | none => .ok { st with total := st.total + 1, failures := st.failures + 1 }
    | some duration =>
      if crop_video env (inputPathOf base relPath file)
          (inputPathOf out relPath file) maxDuration then
        .ok { st with
              total := st.total + 1
              processed := st.processed + 1
              cropped := st.cropped + (if duration > maxDuration then 1 else 0)
              written := st.written ++ [(relPath, file)] }
      else .ok { st with total := st.total + 1, failures := st.failures + 1 }
  else .ok st

/-- Per-directory body of the crop pipeline's walk: identical mirrored
mkdir (again outside any try block) followed by the file loop. -/
def cropDirStep (env : Env) (base out : String) (maxDuration : ℚ)
    (st : CropStats) (d : WalkEntry) : Except PyError CropStats :=
  if d.relPath != (".") && !(env.dirExists (pathJoin out d.relPath))
      && !(env.mkdirOk (pathJoin out d.relPath)) then .error .osError
  else exFold (cropFileStep env base out d.relPath maxDuration) st d.files

/-- process_directory of video-crop-script.py: create the output root
when missing (fatal before any file), then walk the tree accumulating
statistics from zero. -/
def process_directory_crop (env : Env) (base out : String) (maxDuration : ℚ)
    (walk : List WalkEntry) : Except PyError CropStats :=
  if !(env.dirExists out) && !(env.mkdirOk out) then .error .osError
  else exFold (cropDirStep env base out maxDuration) ⟨0, 0, 0, 0, []⟩ walk

/-! ## Basic lemmas about the loop fold -/

theorem exBind_eq_ok {σ : Type} {x : Except PyError σ} {g : σ → Except PyError σ}
    {s' : σ} (h : exBind x g = .ok s') : ∃ s1, x = .ok s1 ∧ g s1 = .ok s' := by
  cases x with
  | ok s1 => exact ⟨s1, rfl, h⟩
  | error e => exact absurd h (by simp [exBind])

theorem exFold_nil {σ α : Type} (f : σ → α → Except PyError σ) (s : σ) :
    exFold f s [] = .ok s := rfl

theorem exFold_cons {σ α : Type} (f : σ → α → Except PyError σ) (s : σ) (a : α)
    (as : List α) :
    exFold f s (a :: as) = exBind (f s a) (fun s1 => exFold f s1 as) := rfl

/-- Preservation of an invariant along a loop that finishes normally;
the loop body may use membership of the element in the iterated list. -/
theorem exFold_inv_mem {σ α : Type} (f : σ → α → Except PyError σ) (P : σ → Prop) :
    ∀ (l : List α), (∀ s a, a ∈ l → ∀ s', f s a = .ok s' → P s → P s') →
      ∀ s s', exFold f s l = .ok s' → P s → P s' := by
  intro l
  induction l with
  | nil =>
    intro _ s s' h hP
    rw [exFold_nil] at h
    injection h with h2
    exact h2 ▸ hP
  | cons a as ih =>
    intro hf s s' h hP
    rw [exFold_cons] at h
    obtain ⟨s1, hfa, h2⟩ := exBind_eq_ok h
    exact ih (fun t b hb t' => hf t b (List.mem_cons_of_mem a hb) t') s1 s' h2
      (hf s a (List.mem_cons_self a as) s1 hfa hP)

/-- A loop whose body never raises on the elements of the list finishes
normally. -/
theorem exFold_ok_of {σ α : Type} (f : σ → α → Except PyError σ) :
    ∀ (l : List α), (∀ s a, a ∈ l → ∃ s', f s a = .ok s') →
      ∀ s, ∃ s', exFold f s l = .ok s' := by
  intro l
  induction l with
  | nil => exact fun _ s => ⟨s, rfl⟩
  | cons a as ih =>
    intro hf s
    obtain ⟨s1, h1⟩ := hf s a (List.mem_cons_self a as)
    obtain ⟨s', h2⟩ := ih (fun t b hb => hf t b (List.mem_cons_of_mem a hb)) s1
    refine ⟨s', ?_⟩
    rw [exFold_cons, h1]
    exact h2

/-- The matching files of one walked directory, as (relative path,
filename) pairs: exactly those files that pass the extension test. -/
def dirMatching (d : WalkEntry) : List (String × String) :=
  (d.files.filter (fun f => isVideoFile f)).map (fun f => (d.relPath, f))

/-- All matching files of a walk, in walk order. -/
def matchingFiles : List WalkEntry → List (String × String)
  | [] => []
  | d :: rest => dirMatching d ++ matchingFiles rest

/-! ## Characterization of the per-file loop bodies -/

/-- Exhaustive description of what one iteration of the crop pipeline's
file loop can do to the statistics: leave them unchanged (non-matching
file), count a failure (probe returned None, or crop_video returned
False), or count a processed video, possibly also a cropped one, and
record the written output.  The crop file loop never raises. -/
theorem cropFileStep_cases {env : Env} {base out relPath : String} {m : ℚ}
    {st : CropStats} {file : String} {st' : CropStats}
    (h : cropFileStep env base out relPath m st file = .ok st') :
    st' = st ∨
    st' = { st with total := st.total + 1, failures := st.failures + 1 } ∨
    (isVideoFile file = true ∧ ∃ k, k ≤ 1 ∧
      st' = { st with
              total := st.total + 1
              processed := st.processed + 1
              cropped := st.cropped + k
              written := st.written ++ [(relPath, file)] }) := by
  unfold cropFileStep at h
  split at h
  case isTrue hv =>
    split at h
    · injection h with h2
      exact Or.inr (Or.inl h2.symm)
    case h_2 duration hd =>
      split at h
      case isTrue hc =>
        injection h with h2
        refine Or.inr (Or.inr ⟨hv, (if duration > m then 1 else 0), ?_, h2.symm⟩)
        split
        · exact le_refl 1
        · exact Nat.zero_le 1
      case isFalse hc =>
        injection h with h2
        exact Or.inr (Or.inl h2.symm)
  case isFalse hv =>
    injection h with h2
    exact Or.inl h2.symm

/-- Exhaustive description of one iteration of the compression
pipeline's file loop: unchanged, a counted failure, or a counted
compression with the saved megabytes accumulated and the output
recorded; unlike the crop loop it can also raise (bare os.path.getsize
on the input, or on the output of a successful compression), in which
case no updated statistics result. -/
theorem compFileStep_cases {env : Env} {base out relPath : String} {crf : Nat}
    {st : CompStats} {file : String} {st' : CompStats}
    (h : compFileStep env base out relPath crf st file = .ok st') :
    st' = st ∨
    st' = { st with total := st.total + 1, failures := st.failures + 1 } ∨
    (isVideoFile file = true ∧ ∃ q : ℚ,
      st' = { st with
              total := st.total + 1
              compressed := st.compressed + 1
              savedMB := st.savedMB + q
              written := st.written ++ [(relPath, file)] }) := by
  unfold compFileStep at h
  split at h
  case isTrue hv =>
    split at h
    · exact absurd h (by simp)
    case h_2 inBytes hin =>
      split at h
      case isTrue hc =>
        split at h
        · exact absurd h (by simp)
        case h_2 outBytes hout =>
          injection h with h2
          exact Or.inr (Or.inr ⟨hv, _, h2.symm⟩)
      case isFalse hc =>
        injection h with h2
        exact Or.inr (Or.inl h2.symm)
  case isFalse hv =>
    injection h with h2
    exact Or.inl h2.symm

/-! ## Invariant propagation through a completed run -/

/-- An invariant preserved by every iteration of the crop pipeline's
file loop holds at the end of any completed run. -/
theorem process_crop_inv_mem (env : Env) (base out : String) (m : ℚ)
    (walk : List WalkEntry) (P : CropStats → Prop)
    (hP : ∀ d, d ∈ walk → ∀ file, file ∈ d.files → ∀ st st',
        cropFileStep env base out d.relPath m st file = .ok st' → P st → P st')
    (st' : CropStats) (h : process_directory_crop env base out m walk = .ok st')
    (h0 : P ⟨0, 0, 0, 0, []⟩) : P st' := by
  unfold process_directory_crop at h
  split at h
  · exact absurd h (by simp)
  · refine exFold_inv_mem (cropDirStep env base out m) P walk ?_ _ st' h h0
    intro s d hd s2 hstep hPs
    unfold cropDirStep at hstep
    split at hstep
    · exact absurd hstep (by simp)
    · exact exFold_inv_mem (cropFileStep env base out d.relPath m) P d.files
        (fun t f hf t' ht hPt => hP d hd f hf t t' ht hPt) s s2 hstep hPs

/-- An invariant preserved by every iteration of the compression
pipeline's file loop holds at the end of any completed run. -/
theorem process_comp_inv_mem (env : Env) (base out : String) (crf : Nat)
    (walk : List WalkEntry) (P : CompStats → Prop)
    (hP : ∀ d, d ∈ walk → ∀ file, file ∈ d.files → ∀ st st',
        compFileStep env base out d.relPath crf st file = .ok st' → P st → P st')
    (st' : CompStats) (h : process_directory_comp env base out crf walk = .ok st')
    (h0 : P ⟨0, 0, 0, 0, []⟩) : P st' := by
  unfold process_directory_comp at h
  split at h
  · exact absurd h (by simp)
  · refine exFold_inv_mem (compDirStep env base out crf) P walk ?_ _ st' h h0
    intro s d hd s2 hstep hPs
    unfold compDirStep at hstep
    split at hstep
    · exact absurd hstep (by simp)
    · exact exFold_inv_mem (compFileStep env base out d.relPath crf) P d.files
        (fun t f hf t' ht hPt => hP d hd f hf t t' ht hPt) s s2 hstep hPs

/-- Membership of a matching file of the walk in matchingFiles. -/
theorem mem_matchingFiles {walk : List WalkEntry} {d : WalkEntry} (hd : d ∈ walk)
    {f : String} (hf : f ∈ d.files) (hv : isVideoFile f = true) :
    (d.relPath, f) ∈ matchingFiles walk := by
  induction walk with
  | nil => cases hd
  | cons e es ih =>
    rcases List.mem_cons.mp hd with h | h
    · subst h
      exact List.mem_append_left _
        (List.mem_map.mpr ⟨f, List.mem_filter.mpr ⟨hf, hv⟩, rfl⟩)
    · exact List.mem_append_right _ (ih h)

/-! ## Completed runs when every external operation succeeds -/

/-- When probing and cropping succeed on every file, the file loop of
one directory completes and appends exactly the matching files of that
directory to the written outputs. -/
theorem cropFiles_all_ok (env : Env) (base out relPath : String) (m : ℚ)
    (hp : ∀ p, (get_video_duration env p).isSome = true)
    (hc : ∀ i o, crop_video env i o m = true) :
    ∀ (files : List String) (st : CropStats),
      ∃ st', exFold (cropFileStep env base out relPath m) st files = .ok st' ∧
        st'.written = st.written ++
          (files.filter (fun f => isVideoFile f)).map (fun f => (relPath, f)) := by
  intro files
  induction files with
  | nil => exact fun st => ⟨st, rfl, by simp⟩
  | cons f fs ih =>
    intro st
    cases hv : isVideoFile f with
    | false =>
      obtain ⟨st', h1, h2⟩ := ih st
      refine ⟨st', ?_, ?_⟩
      · rw [exFold_cons]
        have hstep : cropFileStep env base out relPath m st f = .ok st := by
          simp [cropFileStep, hv]
        rw [hstep]
        exact h1
      · rw [h2]
        simp [hv]
    | true =>
      rcases Option.isSome_iff_exists.mp (hp (inputPathOf base relPath f)) with ⟨d, hd⟩
      obtain ⟨st', h1, h2⟩ := ih
        { st with
          total := st.total + 1
          processed := st.processed + 1
          cropped := st.cropped + (if d > m then 1 else 0)
          written := st.written ++ [(relPath, f)] }
      refine ⟨st', ?_, ?_⟩
      · rw [exFold_cons]
        have hstep : cropFileStep env base out relPath m st f = .ok
            { st with
              total := st.total + 1
              processed := st.processed + 1
              cropped := st.cropped + (if d > m then 1 else 0)
              written := st.written ++ [(relPath, f)] } := by
          simp [cropFileStep, hv, hd, hc]
        rw [hstep]
        exact h1
      · rw [h2]
        simp [hv, List.filter_cons]

/-- When additionally every mkdir succeeds, the whole crop walk
completes, writing exactly the matching files of the walk. -/
theorem cropWalk_all_ok (env : Env) (base out : String) (m : ℚ)
    (hm : ∀ p, env.mkdirOk p = true)
    (hp : ∀ p, (get_video_duration env p).isSome = true)
    (hc : ∀ i o, crop_video env i o m = true) :
    ∀ (walk : List WalkEntry) (st : CropStats),
      ∃ st', exFold (cropDirStep env base out m) st walk = .ok st' ∧
        st'.written = st.written ++ matchingFiles walk := by
  intro walk
  induction walk with
  | nil => exact fun st => ⟨st, rfl, by simp [matchingFiles]⟩
  | cons d ds ih =>
    intro st
    obtain ⟨st1, h1, h2⟩ := cropFiles_all_ok env base out d.relPath m hp hc d.files st
    obtain ⟨st', h3, h4⟩ := ih st1
    refine ⟨st', ?_, ?_⟩
    · rw [exFold_cons]
      have hstep : cropDirStep env base out m st d = .ok st1 := by
        unfold cropDirStep
        rw [if_neg (by simp [hm])]
        exact h1
      rw [hstep]
      exact h3
    · rw [h4, h2, matchingFiles]
      simp [dirMatching, List.append_assoc]

/-- When probing, compression and size queries succeed on every file,
the file loop of one directory of the compression walk completes and
appends exactly the matching files of that directory. -/
theorem compFiles_all_ok (env : Env) (base out relPath : String) (crf : Nat)
    (hs : ∀ p, (env.getsize p).isSome = true)
    (hc : ∀ i o, compress_video env i o crf = true) :
    ∀ (files : List String) (st : CompStats),
      ∃ st', exFold (compFileStep env base out relPath crf) st files = .ok st' ∧
        st'.written = st.written ++
          (files.filter (fun f => isVideoFile f)).map (fun f => (relPath, f)) := by
  intro files
  induction files with
  | nil => exact fun st => ⟨st, rfl, by simp⟩
  | cons f fs ih =>
    intro st
    cases hv : isVideoFile f with
    | false =>
      obtain ⟨st', h1, h2⟩ := ih st
      refine ⟨st', ?_, ?_⟩
      · rw [exFold_cons]
        have hstep : compFileStep env base out relPath crf st f = .ok st := by
          simp [compFileStep, hv]
        rw [hstep]
        exact h1
      · rw [h2]
        simp [hv]
    | true =>
      rcases Option.isSome_iff_exists.mp (hs (inputPathOf base relPath f)) with ⟨n1, hn1⟩
      rcases Option.isSome_iff_exists.mp (hs (inputPathOf out relPath f)) with ⟨n2, hn2⟩
      obtain ⟨st', h1, h2⟩ := ih
        { st with
          total := st.total + 1
          compressed := st.compressed + 1
          savedMB := st.savedMB +
            ((n1 : ℚ) / (1024 * 1024) - (n2 : ℚ) / (1024 * 1024))
          written := st.written ++ [(relPath, f)] }
      refine ⟨st', ?_, ?_⟩
      · rw [exFold_cons]
        have hstep : compFileStep env base out relPath crf st f = .ok
            { st with
              total := st.total + 1
              compressed := st.compressed + 1
              savedMB := st.savedMB +
                ((n1 : ℚ) / (1024 * 1024) - (n2 : ℚ) / (1024 * 1024))
              written := st.written ++ [(relPath, f)] } := by
          simp [compFileStep, hv, hn1, hn2, hc]
        rw [hstep]
        exact h1
      · rw [h2]
        simp [hv, List.filter_cons]

/-- When additionally every mkdir succeeds, the whole compression walk
completes, writing exactly the matching files of the walk. -/
theorem compWalk_all_ok (env : Env) (base out : String) (crf : Nat)
    (hm : ∀ p, env.mkdirOk p = true)
    (hs : ∀ p, (env.getsize p).isSome = true)
    (hc : ∀ i o, compress_video env i o crf = true) :
    ∀ (walk : List WalkEntry) (st : CompStats),
      ∃ st', exFold (compDirStep env base out crf) st walk = .ok st' ∧
        st'.written = st.written ++ matchingFiles walk := by
  intro walk
  induction walk with
  | nil => exact fun st => ⟨st, rfl, by simp [matchingFiles]⟩
  | cons d ds ih =>
    intro st
    obtain ⟨st1, h1, h2⟩ := compFiles_all_ok env base out d.relPath crf hs hc d.files st
    obtain ⟨st', h3, h4⟩ := ih st1
    refine ⟨st', ?_, ?_⟩
    · rw [exFold_cons]
      have hstep : compDirStep env base out crf st d = .ok st1 := by
        unfold compDirStep
        rw [if_neg (by simp [hm])]
        exact h1
      rw [hstep]
      exact h3
    · rw [h4, h2, matchingFiles]
      simp [dirMatching, List.append_assoc]

/-! ## The crop file loop never raises; the compression one does not
raise when size queries succeed -/

/-- One iteration of the crop pipeline's file loop always returns
normally: every failure path inside it is caught. -/
theorem cropFileStep_isOk (env : Env) (base out relPath : String) (m : ℚ)
    (st : CropStats) (file : String) :
    ∃ st', cropFileStep env base out relPath m st file = .ok st' := by
  cases hv : isVideoFile file with
  | false => exact ⟨st, by simp [cropFileStep, hv]⟩
  | true =>
    cases hd : get_video_duration env (inputPathOf base relPath file) with
    | none =>
      exact ⟨{ st with total := st.total + 1, failures := st.failures + 1 },
        by simp [cropFileStep, hv, hd]⟩
    | some d =>
      cases hc : crop_video env (inputPathOf base relPath file)
          (inputPathOf out relPath file) m with
      | false =>
        exact ⟨{ st with total := st.total + 1, failures := st.failures + 1 },
          by simp [cropFileStep, hv, hd, hc]⟩
      | true =>
        exact ⟨{ st with
                 total := st.total + 1
                 processed := st.processed + 1
                 cropped := st.cropped + (if d > m then 1 else 0)
                 written := st.written ++ [(relPath, file)] },
          by simp [cropFileStep, hv, hd, hc]⟩

/-- One iteration of the compression pipeline's file loop returns
normally provided both bare size queries succeed. -/
theorem compFileStep_isOk (env : Env) (base out relPath : String) (crf : Nat)
    (st : CompStats) (file : String)
    (hs : ∀ p, (env.getsize p).isSome = true) :
    ∃ st', compFileStep env base out relPath crf st file = .ok st' := by
  cases hv : isVideoFile file with
  | false => exact ⟨st, by simp [compFileStep, hv]⟩
  | true =>
    rcases Option.isSome_iff_exists.mp (hs (inputPathOf base relPath file)) with ⟨n1, hn1⟩
    cases hc : compress_video env (inputPathOf base relPath file)
        (inputPathOf out relPath file) crf with
    | false =>
      exact ⟨{ st with total := st.total + 1, failures := st.failures + 1 },
        by simp [compFileStep, hv, hn1, hc]⟩
    | true =>
      rcases Option.isSome_iff_exists.mp (hs (inputPathOf out relPath file)) with ⟨n2, hn2⟩
      exact ⟨{ st with
               total := st.total + 1
               compressed := st.compressed + 1
               savedMB := st.savedMB +
                 ((n1 : ℚ) / (1024 * 1024) - (n2 : ℚ) / (1024 * 1024))
               written := st.written ++ [(relPath, file)] },
        by simp [compFileStep, hv, hn1, hn2, hc]⟩

/-! ## Facts about the sanitizing replacement -/

theorem sanitizeChar_idem (c : Char) : sanitizeChar (sanitizeChar c) = sanitizeChar c := by
  unfold sanitizeChar
  split
  · rw [if_neg (by decide)]
  · rfl

theorem sanitizeChar_valid (c : Char) : invalid_chars.contains (sanitizeChar c) = false := by
  unfold sanitizeChar
  split
  · decide
  case isFalse h => simpa using h

/-! ## Concrete test environments -/

/-- Environment in which every external operation succeeds: ffprobe
exits 0 and parses to 5 seconds, ffmpeg exits 0, every file has size
1048576 bytes (1 MB), every mkdir succeeds, no directory pre-exists. -/
def envAllOk : Env :=
  { ffprobeExit := fun _ => 0
    ffprobeParsed := fun _ => some 5
    ffmpegExit := fun _ => 0
    getsize := fun _ => some 1048576
    mkdirOk := fun _ => true
    dirExists := fun _ => false }

/-- Environment whose files all have size zero while every tool
succeeds. -/
def envZero : Env :=
  { ffprobeExit := fun _ => 0
    ffprobeParsed := fun _ => some 5
    ffmpegExit := fun _ => 0
    getsize := fun _ => some 0
    mkdirOk := fun _ => true
    dirExists := fun _ => false }

/-- Environment in which ffprobe always exits 1, so every duration
probe fails; everything else succeeds. -/
def envProbeFail : Env :=
  { ffprobeExit := fun _ => 1
    ffprobeParsed := fun _ => some 5
    ffmpegExit := fun _ => 0
    getsize := fun _ => some 1048576
    mkdirOk := fun _ => true
    dirExists := fun _ => false }

/-- Environment agreeing with envProbeFail on the probing oracles but
whose ffmpeg always fails: used to show that a file whose probe failed
never reaches the transform tool. -/
def envProbeFailBadTool : Env :=
  { ffprobeExit := fun _ => 1
    ffprobeParsed := fun _ => some 5
    ffmpegExit := fun _ => 1
    getsize := fun _ => none
    mkdirOk := fun _ => false
    dirExists := fun _ => false }

/-- Environment in which the output root already exists but every
mkdir fails, so creating any mirrored subdirectory raises OSError. -/
def envMkdirFail : Env :=
  { ffprobeExit := fun _ => 0
    ffprobeParsed := fun _ => some 5
    ffmpegExit := fun _ => 0
    getsize := fun _ => some 1048576
    mkdirOk := fun _ => false
    dirExists := fun p => p == ("out") }

/-- Environment for the trim-branch tests: probe parses to 9 seconds
and every tool succeeds on 1 MB files. -/
def envNine : Env :=
  { ffprobeExit := fun _ => 0
    ffprobeParsed := fun _ => some 9
    ffmpegExit := fun _ => 0
    getsize := fun _ => some 1048576
    mkdirOk := fun _ => true
    dirExists := fun _ => false }

/-! ## Counter arithmetic of single iterations -/

/-- Numeric consequences of one crop file-loop iteration: every counter
is monotone, the total's increase equals the combined increase of
processed and failures, and cropped increases by no more than
processed. -/
theorem cropFileStep_counters {env : Env} {base out relPath : String} {m : ℚ}
    {st : CropStats} {file : String} {st' : CropStats}
    (h : cropFileStep env base out relPath m st file = .ok st') :
    st.total ≤ st'.total ∧ st.processed ≤ st'.processed ∧
    st.cropped ≤ st'.cropped ∧ st.failures ≤ st'.failures ∧
    st'.total + st.processed + st.failures = st.total + st'.processed + st'.failures ∧
    st'.cropped + st.processed ≤ st.cropped + st'.processed := by
  rcases cropFileStep_cases h with h1 | h1 | ⟨_, k, hk, h1⟩ <;> subst h1 <;>
    refine ⟨?_, ?_, ?_, ?_, ?_, ?_⟩ <;> simp <;> omega

/-- Numeric consequences of one compression file-loop iteration. -/
theorem compFileStep_counters {env : Env} {base out relPath : String} {crf : Nat}
    {st : CompStats} {file : String} {st' : CompStats}
    (h : compFileStep env base out relPath crf st file = .ok st') :
    st.total ≤ st'.total ∧ st.compressed ≤ st'.compressed ∧ st.failures ≤ st'.failures ∧
    st'.total + st.compressed + st.failures = st.total + st'.compressed + st'.failures := by
  rcases compFileStep_cases h with h1 | h1 | ⟨_, q, h1⟩ <;> subst h1 <;>
    refine ⟨?_, ?_, ?_, ?_⟩ <;> simp <;> omega

/-! ## The claims -/

/-- C9: sanitize_folder_name is idempotent — applying it twice yields
the same result as applying it once — and its output never contains any
of the characters of the invalid class. -/
theorem spec_C9 (name : String) :
    sanitize_folder_name (sanitize_folder_name name) = sanitize_folder_name name ∧
    (sanitize_folder_name name).data.all
      (fun c => !(invalid_chars.contains c)) = true := by
  constructor
  · show String.mk ((name.data.map sanitizeChar).map sanitizeChar) =
      String.mk (name.data.map sanitizeChar)
    rw [List.map_map]
    exact congrArg String.mk (List.map_congr_left (fun c _ => sanitizeChar_idem c))
  · rw [List.all_eq_true]
    intro c hc
    rcases List.mem_map.mp hc with ⟨a, _, ha⟩
    rw [← ha, sanitizeChar_valid]
    rfl

/-- C8: for a zero-byte input file, compress_video returns False even
when ffmpeg exits with status 0 and the output size is readable: the
savings computation divides by the input size and the resulting
ZeroDivisionError is swallowed by the blanket handler. -/
theorem spec_C8 (env : Env) (input output : String) (crf : Nat) (outBytes : Nat)
    (hexit : env.ffmpegExit (compressCmd input output crf) = 0)
    (hin : env.getsize input = some 0)
    (hout : env.getsize output = some outBytes) :
    compress_video env input output crf = false ∧
    compressRun env input output crf = .error .zeroDivisionError := by
  have hrun : compressRun env input output crf = .error .zeroDivisionError := by
    unfold compressRun
    rw [hexit]
    simp [hin, hout]
  exact ⟨by unfold compress_video; rw [hrun], hrun⟩

/-- Witness for C8 at a concrete environment whose files all have size
zero while ffmpeg succeeds. -/
theorem spec_C8_witness :
    compress_video envZero ("a.mp4") ("o.mp4") 23 = false ∧
    compressRun envZero ("a.mp4") ("o.mp4") 23 = .error .zeroDivisionError :=
  spec_C8 envZero ("a.mp4") ("o.mp4") 23 0 rfl rfl rfl

/-- C6 counterexample: the batch converter's ffmpeg command (conv.py)
contains no -y flag at all, so it does not overwrite a pre-existing
destination without prompting; the claim fails for that mode. -/
theorem spec_C6_cex :
    ("-y") ∉ convCmd (pathJoin ("Capstone") ("v.mov")) (pathJoin ("CapstoneC") ("v.mp4")) := by
  decide

/-- C6 amended: the compress command, both crop commands (the trim cut
and the passthrough stream copy), and hence whatever command crop_video
selects, all pass -y so a pre-existing destination is overwritten
without prompting; the conv.py batch converter does not pass it. -/
theorem spec_C6 (input output : String) (crf : Nat) (d m : ℚ) :
    ("-y") ∈ compressCmd input output crf ∧
    ("-y") ∈ cropCopyCmd input output ∧
    ("-y") ∈ cropTrimCmd input output m ∧
    ("-y") ∈ cropCmd input output d m := by
  refine ⟨by simp [compressCmd], by simp [cropCopyCmd], by simp [cropTrimCmd], ?_⟩
  unfold cropCmd
  split
  · simp [cropCopyCmd]
  · simp [cropTrimCmd]

/-- C4: with a successfully probed duration, crop_video builds the
plain stream-copy command (no re-encoding, no cut) when the duration is
within the configured max, and the command cutting at the max-duration
mark with stream copy of both the video and the audio stream (rather
than a re-encode) when the duration exceeds it; moreover a successful
crop_video means exactly that command was handed to the tool and it
exited 0. -/
theorem spec_C4 (env : Env) (input output : String) (d m : ℚ)
    (hd : get_video_duration env input = some d) :
    (d ≤ m → cropCmd input output d m =
      [("ffmpeg"), ("-i"), input, ("-c"), ("copy"), output, ("-y")]) ∧
    (d > m → cropCmd input output d m =
      [("ffmpeg"), ("-i"), input, ("-t"), toString m,
       ("-c:v"), ("copy"), ("-c:a"), ("copy"), output, ("-y")]) ∧
    (crop_video env input output m = true →
      env.ffmpegExit (cropCmd input output d m) = 0) := by
  refine ⟨fun hle => by simp [cropCmd, cropCopyCmd, hle],
    fun hgt => by simp [cropCmd, cropTrimCmd, not_le.mpr hgt], ?_⟩
  intro hsucc
  by_contra hne
  have hb : (env.ffmpegExit (cropCmd input output d m) != 0) = true := by
    simpa using hne
  have hfalse : crop_video env input output m = false := by
    simp [crop_video, cropRun, hd, hb]
  rw [hfalse] at hsucc
  exact Bool.noConfusion hsucc

/-- Witness for C4: both branches at concrete durations 5 and 9 against
a max of 7, and the link to the tool's exit status. -/
theorem spec_C4_witness :
    cropCmd ("a.mp4") ("o.mp4") 5 7 =
      [("ffmpeg"), ("-i"), ("a.mp4"), ("-c"), ("copy"), ("o.mp4"), ("-y")] ∧
    cropCmd ("c.mp4") ("d.mp4") 9 7 =
      [("ffmpeg"), ("-i"), ("c.mp4"), ("-t"), toString (7 : ℚ),
       ("-c:v"), ("copy"), ("-c:a"), ("copy"), ("d.mp4"), ("-y")] ∧
    envAllOk.ffmpegExit (cropCmd ("a.mp4") ("o.mp4") 5 7) = 0 :=
  ⟨(spec_C4 envAllOk ("a.mp4") ("o.mp4") 5 7 rfl).1 (by norm_num),
   (spec_C4 envNine ("c.mp4") ("d.mp4") 9 7 rfl).2.1 (by norm_num),
   (spec_C4 envAllOk ("a.mp4") ("o.mp4") 5 7 rfl).2.2 (by decide)⟩

/-- C7 counterexample: with a zero-byte input (input_total 0 for that
file) and a successful tool run, the code does not report 0 percent:
no percentage is reported at all — the unguarded division raises and
compress_video fails — so the claimed division guard does not exist. -/
theorem spec_C7_cex :
    ¬ (compressReport envZero ("a.mp4") ("o.mp4") 23 = some 0) ∧
    compress_video envZero ("a.mp4") ("o.mp4") 23 = false := by
  exact ⟨by decide, by decide⟩

/-- C7 amended: the per-file reported percentage equals
(1 - output/input) * 100 only when the input size is nonzero; there is
no guard — a zero input size makes the computation raise, the exception
is swallowed and the file is reported as a failure with no percentage.
The run summary reports file counts and absolute megabytes saved and
performs no division, so an empty source directory (one walked
directory with no files) completes with a 0/0, 0 MB summary and no
division by zero. -/
theorem spec_C7 :
    (∀ (env : Env) (base out : String) (crf : Nat),
      (env.dirExists out = true ∨ env.mkdirOk out = true) →
      process_directory_comp env base out crf [⟨(".") , []⟩] = .ok ⟨0, 0, 0, 0, []⟩) ∧
    (∀ (env : Env) (input output : String) (crf : Nat),
      env.getsize input = some 0 →
      compressReport env input output crf = none ∧
      compress_video env input output crf = false) ∧
    (∀ (env : Env) (input output : String) (crf : Nat) (inB outB : Nat),
      env.getsize input = some inB → env.getsize output = some outB → inB ≠ 0 →
      env.ffmpegExit (compressCmd input output crf) = 0 →
      compressReport env input output crf =
        some ((1 - ((outB : ℚ) / (1024 * 1024)) / ((inB : ℚ) / (1024 * 1024))) * 100)) := by
  refine ⟨?_, ?_, ?_⟩
  · intro env base out crf h
    rcases h with h | h
    · simp [process_directory_comp, compDirStep, exFold, exBind, h]
    · simp [process_directory_comp, compDirStep, exFold, exBind, h]
  · intro env input output crf hin
    have hrun : compressRun env input output crf = .ok (false, none) ∨
        compressRun env input output crf = .error .osError ∨
        compressRun env input output crf = .error .zeroDivisionError := by
      unfold compressRun
      cases hb : env.ffmpegExit (compressCmd input output crf) != 0 with
      | true => exact Or.inl (by simp [hb])
      | false =>
        cases ho : env.getsize output with
        | none => exact Or.inr (Or.inl (by simp [hb, hin, ho]))
        | some n => exact Or.inr (Or.inr (by simp [hb, hin, ho]))
    rcases hrun with h | h | h <;> simp [compressReport, compress_video, h]
  · intro env input output crf inB outB hin hout hne hexit
    unfold compressReport compressRun
    rw [hexit]
    simp [hin, hout, hne]

/-- Witness for C7: the empty-directory summary at a concrete
environment, the zero-size behaviour, and the reported formula on
1 MB files. -/
theorem spec_C7_witness :
    process_directory_comp envAllOk ("b") ("o") 23 [⟨(".") , []⟩] = .ok ⟨0, 0, 0, 0, []⟩ ∧
    (compressReport envZero ("b.mp4") ("c.mp4") 23 = none ∧
      compress_video envZero ("b.mp4") ("c.mp4") 23 = false) ∧
    compressReport envAllOk ("b.mp4") ("c.mp4") 23 =
      some ((1 - (((1048576 : ℕ) : ℚ) / (1024 * 1024)) /
        (((1048576 : ℕ) : ℚ) / (1024 * 1024))) * 100) :=
  ⟨spec_C7.1 envAllOk ("b") ("o") 23 (Or.inr rfl),
   spec_C7.2.1 envZero ("b.mp4") ("c.mp4") 23 rfl,
   spec_C7.2.2 envAllOk ("b.mp4") ("c.mp4") 23 1048576 1048576 rfl rfl (by decide) rfl⟩

/-- C5 counterexample: a run whose output root already exists and whose
walk is readable aborts with an uncaught OSError when the mirrored
per-file destination subdirectory cannot be created — a per-file error
that is fatal to the whole batch, contradicting the claim that only
output-root creation or an unreadable batch root is fatal. -/
theorem spec_C5_cex :
    process_directory_crop envMkdirFail ("in") ("out") 7
      [⟨(".") , []⟩, ⟨("sub"), [("a.mp4")]⟩] = .error .osError := by
  decide

/-- C5 amended: probe failures and transform failures are caught at the
file boundary — when every mkdir succeeds the crop run always completes
whatever the tools do, and the compression run completes provided
additionally every size query succeeds (its walk loop calls
os.path.getsize outside any try block) — and a failure to create the
top-level output root aborts the run before any file is processed; but
a failure to create a per-file destination subdirectory equally aborts
the run instead of being folded into the statistics (see the
counterexample). -/
theorem spec_C5 :
    (∀ (env : Env) (base out : String) (m : ℚ) (walk : List WalkEntry),
      (∀ p, env.mkdirOk p = true) →
      ∃ st, process_directory_crop env base out m walk = .ok st) ∧
    (∀ (env : Env) (base out : String) (crf : Nat) (walk : List WalkEntry),
      (∀ p, env.mkdirOk p = true) → (∀ p, (env.getsize p).isSome = true) →
      ∃ st, process_directory_comp env base out crf walk = .ok st) ∧
    (∀ (env : Env) (base out : String) (m : ℚ) (walk : List WalkEntry),
      env.dirExists out = false → env.mkdirOk out = false →
      process_directory_crop env base out m walk = .error .osError) := by
  refine ⟨?_, ?_, ?_⟩
  · intro env base out m walk hm
    unfold process_directory_crop
    rw [if_neg (by simp [hm])]
    refine exFold_ok_of (cropDirStep env base out m) walk ?_ _
    intro s d _
    unfold cropDirStep
    rw [if_neg (by simp [hm])]
    exact exFold_ok_of (cropFileStep env base out d.relPath m) d.files
      (fun t f _ => cropFileStep_isOk env base out d.relPath m t f) s
  · intro env base out crf walk hm hs
    unfold process_directory_comp
    rw [if_neg (by simp [hm])]
    refine exFold_ok_of (compDirStep env base out crf) walk ?_ _
    intro s d _
    unfold compDirStep
    rw [if_neg (by simp [hm])]
    exact exFold_ok_of (compFileStep env base out d.relPath crf) d.files
      (fun t f _ => compFileStep_isOk env base out d.relPath crf t f hs) s
  · intro env base out m walk h1 h2
    simp [process_directory_crop, h1, h2]

/-- Witness for C5: completed runs at a concrete all-succeeding
environment, and a fatal missing output root. -/
theorem spec_C5_witness :
    (∃ st, process_directory_crop envAllOk ("b") ("o") 7
      [⟨(".") , [("a.mp4")]⟩] = .ok st) ∧
    (∃ st, process_directory_comp envAllOk ("b") ("o") 23
      [⟨(".") , [("a.mp4")]⟩] = .ok st) ∧
    process_directory_crop envProbeFailBadTool ("b") ("o") 7
      [⟨(".") , [("a.mp4")]⟩] = .error .osError :=
  ⟨spec_C5.1 envAllOk ("b") ("o") 7 [⟨(".") , [("a.mp4")]⟩] (fun _ => rfl),
   spec_C5.2.1 envAllOk ("b") ("o") 23 [⟨(".") , [("a.mp4")]⟩] (fun _ => rfl) (fun _ => rfl),
   spec_C5.2.2 envProbeFailBadTool ("b") ("o") 7 [⟨(".") , [("a.mp4")]⟩] rfl rfl⟩

/-- C3: a file whose duration probe fails is recorded as a failure and
no transform is attempted on it — the iteration's outcome is the same
under any environment agreeing on the probing oracles, whatever its
transform tool and filesystem do — and the loop continues with the
remaining files of the batch instead of aborting. -/
theorem spec_C3 (env env2 : Env) (base out relPath : String) (m : ℚ)
    (st : CropStats) (file : String)
    (hv : isVideoFile file = true)
    (hd : get_video_duration env (inputPathOf base relPath file) = none)
    (hprobe1 : env2.ffprobeExit = env.ffprobeExit)
    (hprobe2 : env2.ffprobeParsed = env.ffprobeParsed) :
    cropFileStep env base out relPath m st file =
      .ok { st with total := st.total + 1, failures := st.failures + 1 } ∧
    cropFileStep env2 base out relPath m st file =
      cropFileStep env base out relPath m st file ∧
    ∀ rest, exFold (cropFileStep env base out relPath m) st (file :: rest) =
      exFold (cropFileStep env base out relPath m)
        { st with total := st.total + 1, failures := st.failures + 1 } rest := by
  have h1 : cropFileStep env base out relPath m st file =
      .ok { st with total := st.total + 1, failures := st.failures + 1 } := by
    simp [cropFileStep, hv, hd]
  have hd2 : get_video_duration env2 (inputPathOf base relPath file) = none := by
    unfold get_video_duration at hd ⊢
    rw [hprobe1, hprobe2]
    exact hd
  have h2 : cropFileStep env2 base out relPath m st file =
      .ok { st with total := st.total + 1, failures := st.failures + 1 } := by
    simp [cropFileStep, hv, hd2]
  refine ⟨h1, h2.trans h1.symm, fun rest => ?_⟩
  rw [exFold_cons, h1]
  rfl

/-- Witness for C3: a probe-failing environment against one that also
has a failing transform tool and filesystem, on a concrete batch. -/
theorem spec_C3_witness :
    cropFileStep envProbeFail ("b") ("o") (".") 7 ⟨0, 0, 0, 0, []⟩ ("a.mp4") =
      .ok ⟨1, 0, 0, 1, []⟩ ∧
    cropFileStep envProbeFailBadTool ("b") ("o") (".") 7 ⟨0, 0, 0, 0, []⟩ ("a.mp4") =
      cropFileStep envProbeFail ("b") ("o") (".") 7 ⟨0, 0, 0, 0, []⟩ ("a.mp4") ∧
    exFold (cropFileStep envProbeFail ("b") ("o") (".") 7) ⟨0, 0, 0, 0, []⟩
        [("a.mp4"), ("c.mp4")] =
      exFold (cropFileStep envProbeFail ("b") ("o") (".") 7) ⟨1, 0, 0, 1, []⟩ [("c.mp4")] :=
  ⟨(spec_C3 envProbeFail envProbeFailBadTool ("b") ("o") (".") 7 ⟨0, 0, 0, 0, []⟩
      ("a.mp4") (by decide) rfl rfl rfl).1,
   (spec_C3 envProbeFail envProbeFailBadTool ("b") ("o") (".") 7 ⟨0, 0, 0, 0, []⟩
      ("a.mp4") (by decide) rfl rfl rfl).2.1,
   (spec_C3 envProbeFail envProbeFailBadTool ("b") ("o") (".") 7 ⟨0, 0, 0, 0, []⟩
      ("a.mp4") (by decide) rfl rfl rfl).2.2 [("c.mp4")]⟩

/-- C2: successes plus failures equals the total files seen, and no
counter is decremented, however many transforms fail.  The first two
conjuncts state the equality at the end of any completed run of either
pipeline — any prefix of a run is itself a run of the prefix walk, so
they state it after every file as well — and the last two state
preservation of the equality plus monotonicity of every counter across
a single file of the walk loop. -/
theorem spec_C2 :
    (∀ (env : Env) (base out : String) (m : ℚ) (walk : List WalkEntry) (st : CropStats),
      process_directory_crop env base out m walk = .ok st →
      st.processed + st.failures = st.total) ∧
    (∀ (env : Env) (base out : String) (crf : Nat) (walk : List WalkEntry) (st : CompStats),
      process_directory_comp env base out crf walk = .ok st →
      st.compressed + st.failures = st.total) ∧
    (∀ (env : Env) (base out relPath : String) (m : ℚ) (st : CropStats) (file : String)
      (st' : CropStats), cropFileStep env base out relPath m st file = .ok st' →
      (st.processed + st.failures = st.total → st'.processed + st'.failures = st'.total) ∧
      st.total ≤ st'.total ∧ st.processed ≤ st'.processed ∧ st.failures ≤ st'.failures) ∧
    (∀ (env : Env) (base out relPath : String) (crf : Nat) (st : CompStats) (file : String)
      (st' : CompStats), compFileStep env base out relPath crf st file = .ok st' →
      (st.compressed + st.failures = st.total → st'.compressed + st'.failures = st'.total) ∧
      st.total ≤ st'.total ∧ st.compressed ≤ st'.compressed ∧ st.failures ≤ st'.failures) := by
  refine ⟨?_, ?_, ?_, ?_⟩
  · intro env base out m walk st h
    refine process_crop_inv_mem env base out m walk
      (fun s => s.processed + s.failures = s.total) ?_ st h rfl
    intro d _ f _ t t' ht hPt
    obtain ⟨_, _, _, _, hδ, _⟩ := cropFileStep_counters ht
    omega
  · intro env base out crf walk st h
    refine process_comp_inv_mem env base out crf walk
      (fun s => s.compressed + s.failures = s.total) ?_ st h rfl
    intro d _ f _ t t' ht hPt
    obtain ⟨_, _, _, hδ⟩ := compFileStep_counters ht
    omega
  · intro env base out relPath m st file st' h
    obtain ⟨h1, h2, _, h4, hδ, _⟩ := cropFileStep_counters h
    exact ⟨fun he => by omega, h1, h2, h4⟩
  · intro env base out relPath crf st file st' h
    obtain ⟨h1, h2, h3, hδ⟩ := compFileStep_counters h
    exact ⟨fun he => by omega, h1, h2, h3⟩

/-- Witness for C2: the accumulator equality on concrete completed runs
of both pipelines and on concrete single iterations (one success, one
failure). -/
theorem spec_C2_witness :
    (2 : ℕ) + 0 = 2 ∧ (1 : ℕ) + 0 = 1 ∧
    (((0 : ℕ) + 0 = 0 → (1 : ℕ) + 0 = 1) ∧ (0 : ℕ) ≤ 1 ∧ (0 : ℕ) ≤ 1 ∧ (0 : ℕ) ≤ 0) ∧
    (((0 : ℕ) + 0 = 0 → (0 : ℕ) + 1 = 1) ∧ (0 : ℕ) ≤ 1 ∧ (0 : ℕ) ≤ 0 ∧ (0 : ℕ) ≤ 1) :=
  ⟨spec_C2.1 envAllOk ("in") ("out") 7
      [⟨(".") , [("a.mp4"), ("notes.txt")]⟩, ⟨("sub"), [("b.MOV")]⟩]
      ⟨2, 2, 0, 0, [((".") , ("a.mp4")), (("sub"), ("b.MOV"))]⟩ (by decide),
   spec_C2.2.1 envAllOk ("b") ("o") 23 [⟨(".") , [("a.mp4")]⟩]
      ⟨1, 1, 0,
        0 + (((1048576 : ℕ) : ℚ) / (1024 * 1024) - ((1048576 : ℕ) : ℚ) / (1024 * 1024)),
        [((".") , ("a.mp4"))]⟩ rfl,
   spec_C2.2.2.1 envAllOk ("b") ("o") (".") 7 ⟨0, 0, 0, 0, []⟩ ("a.mp4")
      ⟨1, 1, 0, 0, [((".") , ("a.mp4"))]⟩ (by decide),
   spec_C2.2.2.2 envZero ("b") ("o") (".") 23 ⟨0, 0, 0, 0, []⟩ ("a.mp4")
      ⟨1, 0, 1, 0, []⟩ (by decide)⟩

/-- C10: the per-run counters are monotone non-decreasing across every
iteration of the walk and ordered: 0 ≤ cropped ≤ processed ≤ total in
the crop pipeline and 0 ≤ compressed ≤ total in the compression
pipeline, at the end of any completed run (prefixes of a run being runs
of prefix walks, this covers every point of the walk, including the
final summary). -/
theorem spec_C10 :
    (∀ (env : Env) (base out : String) (m : ℚ) (walk : List WalkEntry) (st : CropStats),
      process_directory_crop env base out m walk = .ok st →
      0 ≤ st.cropped ∧ st.cropped ≤ st.processed ∧ st.processed ≤ st.total) ∧
    (∀ (env : Env) (base out : String) (crf : Nat) (walk : List WalkEntry) (st : CompStats),
      process_directory_comp env base out crf walk = .ok st →
      0 ≤ st.compressed ∧ st.compressed ≤ st.total) ∧
    (∀ (env : Env) (base out relPath : String) (m : ℚ) (st : CropStats) (file : String)
      (st' : CropStats), cropFileStep env base out relPath m st file = .ok st' →
      st.total ≤ st'.total ∧ st.processed ≤ st'.processed ∧ st.cropped ≤ st'.cropped ∧
      (st.cropped ≤ st.processed ∧ st.processed ≤ st.total →
        st'.cropped ≤ st'.processed ∧ st'.processed ≤ st'.total)) ∧
    (∀ (env : Env) (base out relPath : String) (crf : Nat) (st : CompStats) (file : String)
      (st' : CompStats), compFileStep env base out relPath crf st file = .ok st' →
      st.total ≤ st'.total ∧ st.compressed ≤ st'.compressed ∧
      (st.compressed ≤ st.total → st'.compressed ≤ st'.total)) := by
  refine ⟨?_, ?_, ?_, ?_⟩
  · intro env base out m walk st h
    have hP := process_crop_inv_mem env base out m walk
      (fun s => s.cropped ≤ s.processed ∧ s.processed ≤ s.total) ?_ st h ⟨le_rfl, le_rfl⟩
    · exact ⟨Nat.zero_le _, hP⟩
    · intro d _ f _ t t' ht hPt
      obtain ⟨h1, h2, h3, _, hδ, h6⟩ := cropFileStep_counters ht
      omega
  · intro env base out crf walk st h
    have hP := process_comp_inv_mem env base out crf walk
      (fun s => s.compressed ≤ s.total) ?_ st h le_rfl
    · exact ⟨Nat.zero_le _, hP⟩
    · intro d _ f _ t t' ht hPt
      obtain ⟨h1, h2, h3, hδ⟩ := compFileStep_counters ht
      omega
  · intro env base out relPath m st file st' h
    obtain ⟨h1, h2, h3, _, hδ, h6⟩ := cropFileStep_counters h
    exact ⟨h1, h2, h3, fun he => by omega⟩
  · intro env base out relPath crf st file st' h
    obtain ⟨h1, h2, h3, hδ⟩ := compFileStep_counters h
    exact ⟨h1, h2, fun he => by omega⟩

/-- Witness for C10: the orderings on concrete completed runs of both
pipelines and on concrete single iterations. -/
theorem spec_C10_witness :
    ((0 : ℕ) ≤ 0 ∧ (0 : ℕ) ≤ 2 ∧ (2 : ℕ) ≤ 2) ∧
    ((0 : ℕ) ≤ 1 ∧ (1 : ℕ) ≤ 1) ∧
    ((0 : ℕ) ≤ 1 ∧ (0 : ℕ) ≤ 1 ∧ (0 : ℕ) ≤ 0 ∧
      ((0 : ℕ) ≤ 0 ∧ (0 : ℕ) ≤ 0 → (0 : ℕ) ≤ 1 ∧ (1 : ℕ) ≤ 1)) ∧
    ((0 : ℕ) ≤ 1 ∧ (0 : ℕ) ≤ 0 ∧ ((0 : ℕ) ≤ 0 → (0 : ℕ) ≤ 1)) :=
  ⟨spec_C10.1 envAllOk ("in") ("out") 7
      [⟨(".") , [("a.mp4"), ("notes.txt")]⟩, ⟨("sub"), [("b.MOV")]⟩]
      ⟨2, 2, 0, 0, [((".") , ("a.mp4")), (("sub"), ("b.MOV"))]⟩ (by decide),
   spec_C10.2.1 envAllOk ("b") ("o") 23 [⟨(".") , [("a.mp4")]⟩]
      ⟨1, 1, 0,
        0 + (((1048576 : ℕ) : ℚ) / (1024 * 1024) - ((1048576 : ℕ) : ℚ) / (1024 * 1024)),
        [((".") , ("a.mp4"))]⟩ rfl,
   spec_C10.2.2.1 envAllOk ("b") ("o") (".") 7 ⟨0, 0, 0, 0, []⟩ ("a.mp4")
      ⟨1, 1, 0, 0, [((".") , ("a.mp4"))]⟩ (by decide),
   spec_C10.2.2.2 envZero ("b") ("o") (".") 23 ⟨0, 0, 0, 0, []⟩ ("a.mp4")
      ⟨1, 0, 1, 0, []⟩ (by decide)⟩

/-- C1: mirroring invariant — when every external operation succeeds on
every file, each pipeline's run completes and its set of written output
files is exactly the set of matching input files, as (relative path,
filename) pairs, so each output sits at the identical relative path
under the output root with its filename preserved; and in any completed
run, every written output is a matching input file at its own relative
path and filename (outputs for failed files are simply absent). -/
theorem spec_C1 :
    (∀ (env : Env) (base out : String) (m : ℚ) (walk : List WalkEntry),
      (∀ p, env.mkdirOk p = true) →
      (∀ p, (get_video_duration env p).isSome = true) →
      (∀ i o, crop_video env i o m = true) →
      ∃ st, process_directory_crop env base out m walk = .ok st ∧
        st.written = matchingFiles walk) ∧
    (∀ (env : Env) (base out : String) (crf : Nat) (walk : List WalkEntry),
      (∀ p, env.mkdirOk p = true) →
      (∀ p, (env.getsize p).isSome = true) →
      (∀ i o, compress_video env i o crf = true) →
      ∃ st, process_directory_comp env base out crf walk = .ok st ∧
        st.written = matchingFiles walk) ∧
    (∀ (env : Env) (base out : String) (m : ℚ) (walk : List WalkEntry) (st : CropStats),
      process_directory_crop env base out m walk = .ok st →
      ∀ x, x ∈ st.written → x ∈ matchingFiles walk) ∧
    (∀ (env : Env) (base out : String) (crf : Nat) (walk : List WalkEntry) (st : CompStats),
      process_directory_comp env base out crf walk = .ok st →
      ∀ x, x ∈ st.written → x ∈ matchingFiles walk) := by
  refine ⟨?_, ?_, ?_, ?_⟩
  · intro env base out m walk hm hp hc
    obtain ⟨st, h1, h2⟩ := cropWalk_all_ok env base out m hm hp hc walk ⟨0, 0, 0, 0, []⟩
    refine ⟨st, ?_, by simpa using h2⟩
    unfold process_directory_crop
    rw [if_neg (by simp [hm])]
    exact h1
  · intro env base out crf walk hm hs hc
    obtain ⟨st, h1, h2⟩ := compWalk_all_ok env base out crf hm hs hc walk ⟨0, 0, 0, 0, []⟩
    refine ⟨st, ?_, by simpa using h2⟩
    unfold process_directory_comp
    rw [if_neg (by simp [hm])]
    exact h1
  · intro env base out m walk st h x hx
    refine process_crop_inv_mem env base out m walk
      (fun s => ∀ y, y ∈ s.written → y ∈ matchingFiles walk) ?_ st h (by simp) x hx
    intro d hd f hf t t' ht hPt y hy
    rcases cropFileStep_cases ht with h1 | h1 | ⟨hv, k, hk, h1⟩ <;> subst h1
    · exact hPt y hy
    · exact hPt y hy
    · rcases List.mem_append.mp hy with h2 | h2
      · exact hPt y h2
      · rw [List.mem_singleton.mp h2]
        exact mem_matchingFiles hd hf hv
  · intro env base out crf walk st h x hx
    refine process_comp_inv_mem env base out crf walk
      (fun s => ∀ y, y ∈ s.written → y ∈ matchingFiles walk) ?_ st h (by simp) x hx
    intro d hd f hf t t' ht hPt y hy
    rcases compFileStep_cases ht with h1 | h1 | ⟨hv, q, h1⟩ <;> subst h1
    · exact hPt y hy
    · exact hPt y hy
    · rcases List.mem_append.mp hy with h2 | h2
      · exact hPt y h2
      · rw [List.mem_singleton.mp h2]
        exact mem_matchingFiles hd hf hv

/-- Witness for C1: exact mirroring of a concrete two-directory walk by
the crop pipeline and a concrete one-directory walk by the compression
pipeline, plus the written-outputs-are-matching-inputs direction on the
same concrete runs. -/
theorem spec_C1_witness :
    (∃ st, process_directory_crop envAllOk ("in") ("out") 7
        [⟨(".") , [("a.mp4"), ("notes.txt")]⟩, ⟨("sub"), [("b.MOV")]⟩] = .ok st ∧
      st.written = matchingFiles
        [⟨(".") , [("a.mp4"), ("notes.txt")]⟩, ⟨("sub"), [("b.MOV")]⟩]) ∧
    (∃ st, process_directory_comp envAllOk ("b") ("o") 23 [⟨(".") , [("a.mp4")]⟩] = .ok st ∧
      st.written = matchingFiles [⟨(".") , [("a.mp4")]⟩]) ∧
    ((".") , ("a.mp4")) ∈ matchingFiles
      [⟨(".") , [("a.mp4"), ("notes.txt")]⟩, ⟨("sub"), [("b.MOV")]⟩] ∧
    ((".") , ("a.mp4")) ∈ matchingFiles [⟨(".") , [("a.mp4")]⟩] :=
  ⟨spec_C1.1 envAllOk ("in") ("out") 7
      [⟨(".") , [("a.mp4"), ("notes.txt")]⟩, ⟨("sub"), [("b.MOV")]⟩]
      (fun _ => rfl) (fun _ => rfl) (fun _ _ => rfl),
   spec_C1.2.1 envAllOk ("b") ("o") 23 [⟨(".") , [("a.mp4")]⟩]
      (fun _ => rfl) (fun _ => rfl) (fun _ _ => rfl),
   spec_C1.2.2.1 envAllOk ("in") ("out") 7
      [⟨(".") , [("a.mp4"), ("notes.txt")]⟩, ⟨("sub"), [("b.MOV")]⟩]
      ⟨2, 2, 0, 0, [((".") , ("a.mp4")), (("sub"), ("b.MOV"))]⟩ (by decide)
      ((".") , ("a.mp4")) (by decide),
   spec_C1.2.2.2 envAllOk ("b") ("o") 23 [⟨(".") , [("a.mp4")]⟩]
      ⟨1, 1, 0,
        0 + (((1048576 : ℕ) : ℚ) / (1024 * 1024) - ((1048576 : ℕ) : ℚ) / (1024 * 1024)),
        [((".") , ("a.mp4"))]⟩ rfl
      ((".") , ("a.mp4")) (List.mem_singleton.mpr rfl)⟩

end Capstone
